import Mathlib

/-!
Modal controller, `src/static/js/modals.js`.

A shallow embedding of the modal script: the part of the host document the
script reads and writes (elements with an id and a class list, the inline
`overflow` style of the body, the pending `setTimeout` callbacks), the four
functions `openModal`, `closeModal`, `switchToRegister`, `switchToLogin`, and
the two document listeners (click and keydown).

Modelling conventions.

* The document is the list of its elements in tree order. A node is named by
  its position in that list; a position past the end of the list names a node
  that is not one of the listed elements (the document itself, say).
* `document.body` exists: the functions run from handlers of the loaded page.
* A JavaScript statement is a function `Page → Outcome`: the page after the
  statement together with the exception it raised, if any. The only operation
  of the script that can raise is a property read on `null`, the result of a
  failed `getElementById`.
* Time is not modelled: a pending timer may fire at any later step.
-/

namespace Modals

/-! ## Data model -/

/-- An element of the document: its `id` attribute (the empty string when the
element has none) and its `classList`, the tokens of its `class` attribute in
order. -/
structure Element where
  id : String
  classList : List String
deriving DecidableEq, Repr

/-- The two arrow functions handed to `setTimeout`:
`() => openModal('registerModal')` and `() => openModal('loginModal')`. -/
inductive Callback where
  | openRegisterModal
  | openLoginModal
deriving DecidableEq, Repr

/-- A pending `setTimeout(callback, delay)`. -/
structure Timer where
  callback : Callback
  delay : Nat
deriving DecidableEq, Repr

/-- The state the script works on. -/
structure Page where
  /-- the elements of the document, in tree order -/
  elements : List Element
  /-- the value of `document.body.style.overflow` -/
  overflow : String
  /-- the pending timers, oldest first -/
  timers : List Timer
deriving DecidableEq, Repr

/-- The exceptions of the script: a `TypeError` from reading a property of
`null`. -/
inductive JsError where
  | typeError
deriving DecidableEq, Repr

/-- The result of running a statement: the page it leaves and the exception it
raised (`none` for normal completion). -/
structure Outcome where
  page : Page
  error : Option JsError
deriving DecidableEq, Repr

/-- Normal completion. -/
def Outcome.ok (s : Page) : Outcome := ⟨s, none⟩

/-- An uncaught exception raised in page `s`. -/
def Outcome.throw (s : Page) (e : JsError) : Outcome := ⟨s, some e⟩

/-- Sequencing of statements: the rest runs only after normal completion. -/
def Outcome.andThen (o : Outcome) (k : Page → Outcome) : Outcome :=
  match o.error with
  | none => k o.page
  | some _ => o

/-! ## The DOM operations the script uses -/

/-- Position of the first element of `es` whose id is `key`. -/
def lookupId (key : String) : List Element → Option Nat
  | [] => none
  | e :: es => if e.id = key then some 0 else (lookupId key es).map (· + 1)

/-- The call `document.getElementById(key)`: the first element in tree order
whose id is `key`, or `none` for `null`. An element without an id is never
found. -/
def getElementById (s : Page) (key : String) : Option Nat :=
  if key = "" then none else lookupId key s.elements

/-- The class list of node `n` (empty when `n` is not an element). -/
def classListOf (s : Page) (n : Nat) : List String :=
  match s.elements[n]? with
  | some e => e.classList
  | none => []

/-- Replace the class list of node `n`. -/
def setClassList (s : Page) (n : Nat) (cl : List String) : Page :=
  match s.elements[n]? with
  | some e => { s with elements := s.elements.set n { e with classList := cl } }
  | none => s

/-- The call `classList.remove(token)` on a token list. -/
def tokensRemove (cl : List String) (token : String) : List String :=
  cl.filter (fun t => t ≠ token)

/-- The call `classList.add(token)` on a token list: appended unless
present. -/
def tokensAdd (cl : List String) (token : String) : List String :=
  if token ∈ cl then cl else cl ++ [token]

/-- The call `classList.contains(token)` on a token list. -/
def tokensContains (cl : List String) (token : String) : Bool :=
  decide (token ∈ cl)

/-- The call `setTimeout(cb, delay)`: one more pending timer. -/
def setTimeout (cb : Callback) (delay : Nat) (s : Page) : Outcome :=
  Outcome.ok { s with timers := s.timers ++ [⟨cb, delay⟩] }

/-- The call `xs.forEach(f)`: `f` on each entry in order, stopping at the
first exception. -/
def forEach (xs : List String) (f : String → Page → Outcome) (s : Page) : Outcome :=
  match xs with
  | [] => Outcome.ok s
  | x :: rest => (f x s).andThen (forEach rest f)

/-! ## The script -/

/-- The function `openModal(modalId)`. -/
def openModal (modalId : String) (s : Page) : Outcome :=
  match getElementById s modalId with
  | none => Outcome.throw s JsError.typeError
  | some n =>
    let s1 := setClassList s n (tokensRemove (classListOf s n) "hidden")
    Outcome.ok { s1 with overflow := "hidden" }

/-- The function `closeModal(modalId)`. -/
def closeModal (modalId : String) (s : Page) : Outcome :=
  match getElementById s modalId with
  | none => Outcome.throw s JsError.typeError
  | some n =>
    let s1 := setClassList s n (tokensAdd (classListOf s n) "hidden")
    Outcome.ok { s1 with overflow := "auto" }

/-- The function `switchToRegister()`. -/
def switchToRegister (s : Page) : Outcome :=
  (closeModal "loginModal" s).andThen (setTimeout Callback.openRegisterModal 300)

/-- The function `switchToLogin()`. -/
def switchToLogin (s : Page) : Outcome :=
  (closeModal "registerModal" s).andThen (setTimeout Callback.openLoginModal 300)

/-- The array `['loginModal', 'registerModal']` of both listeners. -/
def modals : List String := ["loginModal", "registerModal"]

/-- The arrow function of the click listener, `modalId => ...`, for an event
whose target is node `target`. -/
def onClickEach (target : Nat) (modalId : String) (s : Page) : Outcome :=
  let modal := getElementById s modalId
  if some target = modal then closeModal modalId s else Outcome.ok s

/-- The click listener, run for an event whose target is node `target`. -/
def onClick (target : Nat) (s : Page) : Outcome :=
  forEach modals (onClickEach target) s

/-- The arrow function of the keydown listener, `modalId => ...`. -/
def onKeydownEach (modalId : String) (s : Page) : Outcome :=
  match getElementById s modalId with
  | none => Outcome.throw s JsError.typeError
  | some n =>
    if !tokensContains (classListOf s n) "hidden" then closeModal modalId s
    else Outcome.ok s

/-- The keydown listener, run for an event whose `key` is `key`. -/
def onKeydown (key : String) (s : Page) : Outcome :=
  if key = "Escape" then forEach modals onKeydownEach s else Outcome.ok s

/-- Running a timer callback. -/
def Callback.run : Callback → Page → Outcome
  | Callback.openRegisterModal => openModal "registerModal"
  | Callback.openLoginModal => openModal "loginModal"

/-- The key a timer callback passes to `openModal`. -/
def Callback.modalId : Callback → String
  | Callback.openRegisterModal => "registerModal"
  | Callback.openLoginModal => "loginModal"

/-- The `i`-th pending timer fires: it leaves the pending list and its
callback runs. Nothing happens when there is no such timer. -/
def fireTimer (i : Nat) (s : Page) : Outcome :=
  match s.timers[i]? with
  | none => Outcome.ok s
  | some t => t.callback.run { s with timers := s.timers.eraseIdx i }

/-! ## Events and the step function -/

/-- What can happen to the page: a call of one of the four functions, a click,
a key press, a pending timer firing. -/
inductive Event where
  | callOpen (modalId : String)
  | callClose (modalId : String)
  | callSwitchToRegister
  | callSwitchToLogin
  | click (target : Nat)
  | keydown (key : String)
  | timer (i : Nat)
deriving DecidableEq, Repr

/-- The code an event runs. -/
def Event.run : Event → Page → Outcome
  | Event.callOpen k => openModal k
  | Event.callClose k => closeModal k
  | Event.callSwitchToRegister => switchToRegister
  | Event.callSwitchToLogin => switchToLogin
  | Event.click t => onClick t
  | Event.keydown k => onKeydown k
  | Event.timer i => fireTimer i

/-- One step: the page after the event, an uncaught exception leaving the page
as it was when raised. -/
def step (s : Page) (e : Event) : Page := (e.run s).page

/-- The page after a sequence of events. -/
def runEvents (s : Page) (es : List Event) : Page := es.foldl step s

/-- The event calls `openModal` or `closeModal` only with one of the two
registered keys (the other events are not restricted). -/
def Event.registered : Event → Bool
  | Event.callOpen k => decide (k ∈ modals)
  | Event.callClose k => decide (k ∈ modals)
  | _ => true

/-! ## Observations -/

/-- The modal `key` exists and is shown: its class list lacks `hidden`. -/
def visible (s : Page) (key : String) : Bool :=
  match getElementById s key with
  | some n => !tokensContains (classListOf s n) "hidden"
  | none => false

/-- The modal `key` exists and is hidden: its class list has `hidden`. -/
def hidden (s : Page) (key : String) : Bool :=
  match getElementById s key with
  | some n => tokensContains (classListOf s n) "hidden"
  | none => false

/-- The page scroll is locked: the body overflow is `hidden`. -/
def scrollLocked (s : Page) : Bool := decide (s.overflow = "hidden")

/-- The page scroll is unlocked: the body overflow is `auto`. -/
def scrollUnlocked (s : Page) : Bool := decide (s.overflow = "auto")

/-- Both registered modals are in the document. -/
def bothExist (s : Page) : Prop :=
  (getElementById s "loginModal").isSome ∧ (getElementById s "registerModal").isSome

instance (s : Page) : Decidable (bothExist s) := by
  unfold bothExist; exact inferInstance

/-- A page as it is at load: both modals present and hidden, scroll not
locked, no timer pending. -/
def initial (s : Page) : Prop :=
  hidden s "loginModal" = true ∧ hidden s "registerModal" = true ∧
    scrollLocked s = false ∧ s.timers = []

instance (s : Page) : Decidable (initial s) := by
  unfold initial; exact inferInstance

/-- The invariant the script does keep: both modals exist, and a locked scroll
comes with a visible modal. -/
def lockedHasVisible (s : Page) : Prop :=
  bothExist s ∧
    (scrollLocked s = true → visible s "loginModal" = true ∨ visible s "registerModal" = true)

/-- A small page: a login modal (hidden), a register modal (hidden) with a
content element in between. -/
def samplePage : Page :=
  { elements := [⟨"loginModal", ["modal", "hidden"]⟩, ⟨"loginBox", []⟩,
                 ⟨"registerModal", ["hidden", "modal"]⟩],
    overflow := "",
    timers := [] }

/-- A page with both modals shown and the scroll locked. -/
def bothShownPage : Page :=
  { elements := [⟨"loginModal", ["modal"]⟩, ⟨"loginBox", []⟩, ⟨"registerModal", ["modal"]⟩],
    overflow := "hidden",
    timers := [] }

/-- A page with only the register modal shown. -/
def registerShownPage : Page :=
  { elements := [⟨"loginModal", ["modal", "hidden"]⟩, ⟨"loginBox", []⟩,
                 ⟨"registerModal", ["modal"]⟩],
    overflow := "hidden",
    timers := [] }

/-- A page without the register modal. -/
def loginOnlyPage : Page :=
  { elements := [⟨"loginModal", ["modal"]⟩, ⟨"loginBox", []⟩],
    overflow := "hidden",
    timers := [] }

/-! ## Lemmas on the DOM operations -/

theorem lookupId_some {key : String} {es : List Element} {n : Nat}
    (h : lookupId key es = some n) : ∃ e, es[n]? = some e ∧ e.id = key := by
  induction es generalizing n with
  | nil => simp [lookupId] at h
  | cons a as ih =>
    unfold lookupId at h
    split at h
    · rename_i ha
      cases h
      exact ⟨a, by simp, ha⟩
    · cases hl : lookupId key as with
      | none => simp [hl] at h
      | some m =>
        simp [hl] at h
        subst h
        obtain ⟨e, he, hid⟩ := ih hl
        exact ⟨e, by simpa using he, hid⟩

theorem lookupId_set (key : String) (es : List Element) (n : Nat) (e : Element)
    (cl : List String) (h : es[n]? = some e) :
    lookupId key (es.set n { e with classList := cl }) = lookupId key es := by
  induction es generalizing n with
  | nil => simp
  | cons a as ih =>
    cases n with
    | zero =>
      simp at h
      subst h
      simp [lookupId]
    | succ k =>
      simp at h
      simp [lookupId, ih k h]

theorem getElementById_setClassList (s : Page) (n : Nat) (cl : List String)
    (key : String) :
    getElementById (setClassList s n cl) key = getElementById s key := by
  unfold setClassList
  cases h : s.elements[n]? with
  | none => rfl
  | some e => simp [getElementById, lookupId_set key s.elements n e cl h]

theorem getElementById_some {s : Page} {key : String} {n : Nat}
    (h : getElementById s key = some n) :
    ∃ e, s.elements[n]? = some e ∧ e.id = key := by
  unfold getElementById at h
  split at h
  · cases h
  · exact lookupId_some h

theorem getElementById_ne {s : Page} {a b : String} {n m : Nat}
    (ha : getElementById s a = some n) (hb : getElementById s b = some m)
    (hab : a ≠ b) : n ≠ m := by
  obtain ⟨e, he, hid⟩ := getElementById_some ha
  obtain ⟨e2, he2, hid2⟩ := getElementById_some hb
  intro hnm
  subst hnm
  rw [he] at he2
  cases he2
  exact hab (hid.symm.trans hid2)

theorem classListOf_setClassList_same {s : Page} {n : Nat} {e : Element}
    (cl : List String) (h : s.elements[n]? = some e) :
    classListOf (setClassList s n cl) n = cl := by
  have hn : n < s.elements.length := by
    rcases Nat.lt_or_ge n s.elements.length with hlt | hge
    · exact hlt
    · rw [List.getElem?_eq_none hge] at h
      cases h
  simp [classListOf, setClassList, h, List.getElem?_set, hn]

theorem classListOf_setClassList_ne (s : Page) {n m : Nat} (cl : List String)
    (h : n ≠ m) : classListOf (setClassList s n cl) m = classListOf s m := by
  unfold setClassList
  cases he : s.elements[n]? with
  | none => rfl
  | some e => simp [classListOf, List.getElem?_set, h]

theorem timers_setClassList (s : Page) (n : Nat) (cl : List String) :
    (setClassList s n cl).timers = s.timers := by
  unfold setClassList
  cases s.elements[n]? <;> rfl

theorem hidden_not_mem_tokensRemove (cl : List String) :
    "hidden" ∉ tokensRemove cl "hidden" := by
  simp [tokensRemove]

theorem hidden_mem_tokensAdd (cl : List String) :
    "hidden" ∈ tokensAdd cl "hidden" := by
  unfold tokensAdd
  split <;> simp_all

theorem tokensRemove_idem (cl : List String) (token : String) :
    tokensRemove (tokensRemove cl token) token = tokensRemove cl token := by
  simp [tokensRemove]

theorem tokensAdd_idem (cl : List String) (token : String) :
    tokensAdd (tokensAdd cl token) token = tokensAdd cl token := by
  unfold tokensAdd
  by_cases h : token ∈ cl <;> simp [h]

theorem setClassList_setClassList (s : Page) (n : Nat) (cl cl2 : List String) :
    setClassList (setClassList s n cl) n cl2 = setClassList s n cl2 := by
  cases h : s.elements[n]? with
  | none => simp [setClassList, h]
  | some e =>
    have hn : n < s.elements.length := by
      rcases Nat.lt_or_ge n s.elements.length with hlt | hge
      · exact hlt
      · rw [List.getElem?_eq_none hge] at h
        cases h
    simp [setClassList, h, List.getElem?_set, hn]

/-! ## What `openModal` and `closeModal` compute -/

theorem openModal_some {s : Page} {K : String} {n : Nat}
    (h : getElementById s K = some n) :
    openModal K s = Outcome.ok
      { elements := (setClassList s n (tokensRemove (classListOf s n) "hidden")).elements,
        overflow := "hidden",
        timers := s.timers } := by
  simp [openModal, h, timers_setClassList]

theorem closeModal_some {s : Page} {K : String} {n : Nat}
    (h : getElementById s K = some n) :
    closeModal K s = Outcome.ok
      { elements := (setClassList s n (tokensAdd (classListOf s n) "hidden")).elements,
        overflow := "auto",
        timers := s.timers } := by
  simp [closeModal, h, timers_setClassList]

theorem openModal_none {s : Page} {K : String} (h : getElementById s K = none) :
    openModal K s = Outcome.throw s JsError.typeError := by
  simp [openModal, h]

theorem closeModal_none {s : Page} {K : String} (h : getElementById s K = none) :
    closeModal K s = Outcome.throw s JsError.typeError := by
  simp [closeModal, h]

/-- Reading an element does not depend on the overflow style or the timers. -/
theorem getElementById_congr {s t : Page} (h : s.elements = t.elements) (key : String) :
    getElementById s key = getElementById t key := by
  simp [getElementById, h]

theorem classListOf_congr {s t : Page} (h : s.elements = t.elements) (n : Nat) :
    classListOf s n = classListOf t n := by
  simp [classListOf, h]

theorem setClassList_elements_congr {s t : Page} (h : s.elements = t.elements) (n : Nat)
    (cl : List String) : (setClassList s n cl).elements = (setClassList t n cl).elements := by
  unfold setClassList
  rw [h]
  cases t.elements[n]? <;> simp [h]

theorem getElementById_openModal (s : Page) (K key : String) :
    getElementById (openModal K s).page key = getElementById s key := by
  cases h : getElementById s K with
  | none => rw [openModal_none h]; rfl
  | some n =>
    rw [openModal_some h]
    exact (getElementById_congr rfl key).trans (getElementById_setClassList s n _ key)

theorem getElementById_closeModal (s : Page) (K key : String) :
    getElementById (closeModal K s).page key = getElementById s key := by
  cases h : getElementById s K with
  | none => rw [closeModal_none h]; rfl
  | some n =>
    rw [closeModal_some h]
    exact (getElementById_congr rfl key).trans (getElementById_setClassList s n _ key)

theorem classListOf_openModal_same {s : Page} {K : String} {n : Nat}
    (h : getElementById s K = some n) :
    classListOf (openModal K s).page n = tokensRemove (classListOf s n) "hidden" := by
  obtain ⟨e, he, _⟩ := getElementById_some h
  rw [openModal_some h]
  exact (classListOf_congr rfl n).trans (classListOf_setClassList_same _ he)

theorem classListOf_closeModal_same {s : Page} {K : String} {n : Nat}
    (h : getElementById s K = some n) :
    classListOf (closeModal K s).page n = tokensAdd (classListOf s n) "hidden" := by
  obtain ⟨e, he, _⟩ := getElementById_some h
  rw [closeModal_some h]
  exact (classListOf_congr rfl n).trans (classListOf_setClassList_same _ he)

theorem classListOf_openModal_ne {s : Page} {K : String} {n m : Nat}
    (h : getElementById s K = some n) (hnm : n ≠ m) :
    classListOf (openModal K s).page m = classListOf s m := by
  rw [openModal_some h]
  exact (classListOf_congr rfl m).trans (classListOf_setClassList_ne s _ hnm)

theorem classListOf_closeModal_ne {s : Page} {K : String} {n m : Nat}
    (h : getElementById s K = some n) (hnm : n ≠ m) :
    classListOf (closeModal K s).page m = classListOf s m := by
  rw [closeModal_some h]
  exact (classListOf_congr rfl m).trans (classListOf_setClassList_ne s _ hnm)

theorem openModal_error {s : Page} {K : String} {n : Nat}
    (h : getElementById s K = some n) : (openModal K s).error = none := by
  rw [openModal_some h]; rfl

theorem closeModal_error {s : Page} {K : String} {n : Nat}
    (h : getElementById s K = some n) : (closeModal K s).error = none := by
  rw [closeModal_some h]; rfl

theorem openModal_overflow {s : Page} {K : String} {n : Nat}
    (h : getElementById s K = some n) : (openModal K s).page.overflow = "hidden" := by
  rw [openModal_some h]; rfl

theorem closeModal_overflow {s : Page} {K : String} {n : Nat}
    (h : getElementById s K = some n) : (closeModal K s).page.overflow = "auto" := by
  rw [closeModal_some h]; rfl

theorem openModal_timers (s : Page) (K : String) :
    (openModal K s).page.timers = s.timers := by
  cases h : getElementById s K with
  | none => rw [openModal_none h]; rfl
  | some n => rw [openModal_some h]; rfl

theorem closeModal_timers (s : Page) (K : String) :
    (closeModal K s).page.timers = s.timers := by
  cases h : getElementById s K with
  | none => rw [closeModal_none h]; rfl
  | some n => rw [closeModal_some h]; rfl

/-- Opening `K` leaves the visibility of every other key as it was. -/
theorem visible_openModal_ne (s : Page) {K J : String} (hJK : J ≠ K) :
    visible (openModal K s).page J = visible s J := by
  cases h : getElementById s K with
  | none => rw [openModal_none h]; rfl
  | some n =>
    unfold visible
    rw [getElementById_openModal]
    cases hJ : getElementById s J with
    | none => rfl
    | some m =>
      simp only []
      rw [classListOf_openModal_ne h (getElementById_ne h hJ (Ne.symm hJK))]

/-- Closing `K` leaves the visibility of every other key as it was. -/
theorem visible_closeModal_ne (s : Page) {K J : String} (hJK : J ≠ K) :
    visible (closeModal K s).page J = visible s J := by
  cases h : getElementById s K with
  | none => rw [closeModal_none h]; rfl
  | some n =>
    unfold visible
    rw [getElementById_closeModal]
    cases hJ : getElementById s J with
    | none => rfl
    | some m =>
      simp only []
      rw [classListOf_closeModal_ne h (getElementById_ne h hJ (Ne.symm hJK))]

theorem hidden_openModal_ne (s : Page) {K J : String} (hJK : J ≠ K) :
    hidden (openModal K s).page J = hidden s J := by
  cases h : getElementById s K with
  | none => rw [openModal_none h]; rfl
  | some n =>
    unfold hidden
    rw [getElementById_openModal]
    cases hJ : getElementById s J with
    | none => rfl
    | some m =>
      simp only []
      rw [classListOf_openModal_ne h (getElementById_ne h hJ (Ne.symm hJK))]

theorem hidden_closeModal_ne (s : Page) {K J : String} (hJK : J ≠ K) :
    hidden (closeModal K s).page J = hidden s J := by
  cases h : getElementById s K with
  | none => rw [closeModal_none h]; rfl
  | some n =>
    unfold hidden
    rw [getElementById_closeModal]
    cases hJ : getElementById s J with
    | none => rfl
    | some m =>
      simp only []
      rw [classListOf_closeModal_ne h (getElementById_ne h hJ (Ne.symm hJK))]

theorem visible_openModal_same {s : Page} {K : String} {n : Nat}
    (h : getElementById s K = some n) : visible (openModal K s).page K = true := by
  unfold visible
  rw [getElementById_openModal, h]
  simp only []
  rw [classListOf_openModal_same h]
  simp [tokensContains, tokensRemove]

theorem hidden_closeModal_same {s : Page} {K : String} {n : Nat}
    (h : getElementById s K = some n) : hidden (closeModal K s).page K = true := by
  unfold hidden
  rw [getElementById_closeModal, h]
  simp only []
  rw [classListOf_closeModal_same h]
  simpa [tokensContains] using hidden_mem_tokensAdd _

theorem visible_hidden_exclusive (s : Page) (K : String) :
    ¬ (visible s K = true ∧ hidden s K = true) := by
  unfold visible hidden
  cases getElementById s K <;> simp

/-! ## Opening and closing -/

/-- C1: for every page and every key `K` that resolves to an element `n`,
`openModal(K)` completes and leaves `n` (still the element `K` resolves to)
without the class `hidden`, and `closeModal(K)` completes and leaves it with
the class `hidden`, whatever the class list of `n` was before. -/
theorem open_visible_close_hidden (s : Page) (K : String) (n : Nat)
    (h : getElementById s K = some n) :
    ((openModal K s).error = none ∧
      getElementById (openModal K s).page K = some n ∧
      "hidden" ∉ classListOf (openModal K s).page n ∧
      visible (openModal K s).page K = true) ∧
    ((closeModal K s).error = none ∧
      getElementById (closeModal K s).page K = some n ∧
      "hidden" ∈ classListOf (closeModal K s).page n ∧
      hidden (closeModal K s).page K = true) := by
  refine ⟨⟨openModal_error h, ?_, ?_, visible_openModal_same h⟩,
    ⟨closeModal_error h, ?_, ?_, hidden_closeModal_same h⟩⟩
  · rw [getElementById_openModal, h]
  · rw [classListOf_openModal_same h]
    exact hidden_not_mem_tokensRemove _
  · rw [getElementById_closeModal, h]
  · rw [classListOf_closeModal_same h]
    exact hidden_mem_tokensAdd _

/-- The statement of C1 at the sample page and the key `loginModal`. -/
theorem open_visible_close_hidden_witness :
    getElementById samplePage "loginModal" = some 0 ∧
    (((openModal "loginModal" samplePage).error = none ∧
      getElementById (openModal "loginModal" samplePage).page "loginModal" = some 0 ∧
      "hidden" ∉ classListOf (openModal "loginModal" samplePage).page 0 ∧
      visible (openModal "loginModal" samplePage).page "loginModal" = true) ∧
    ((closeModal "loginModal" samplePage).error = none ∧
      getElementById (closeModal "loginModal" samplePage).page "loginModal" = some 0 ∧
      "hidden" ∈ classListOf (closeModal "loginModal" samplePage).page 0 ∧
      hidden (closeModal "loginModal" samplePage).page "loginModal" = true)) :=
  ⟨by decide, open_visible_close_hidden samplePage "loginModal" 0 (by decide)⟩

/-- C2: for every page and every key `K` that resolves, after `openModal(K)`
the body overflow is `hidden` (scroll locked) and after `closeModal(K)` it is
`auto` (scroll unlocked); the latter also when some other modal `J` is
visible, which stays visible through the call. -/
theorem scroll_lock_coupling (s : Page) (K : String)
    (h : (getElementById s K).isSome = true) :
    (openModal K s).page.overflow = "hidden" ∧
    scrollLocked (openModal K s).page = true ∧
    (closeModal K s).page.overflow = "auto" ∧
    scrollUnlocked (closeModal K s).page = true ∧
    scrollLocked (closeModal K s).page = false ∧
    (∀ J, J ≠ K → visible s J = true →
      visible (closeModal K s).page J = true ∧ (closeModal K s).page.overflow = "auto") := by
  obtain ⟨n, hn⟩ := Option.isSome_iff_exists.mp h
  have ho := openModal_overflow hn
  have hc := closeModal_overflow hn
  refine ⟨ho, ?_, hc, ?_, ?_, ?_⟩
  · simp [scrollLocked, ho]
  · simp [scrollUnlocked, hc]
  · simp [scrollLocked, hc]
  · intro J hJ hv
    exact ⟨by rw [visible_closeModal_ne s hJ, hv], hc⟩

/-- The statement of C2 at the page with both modals shown and the key
`loginModal`. -/
theorem scroll_lock_coupling_witness :
    (getElementById bothShownPage "loginModal").isSome = true ∧
    ((openModal "loginModal" bothShownPage).page.overflow = "hidden" ∧
    scrollLocked (openModal "loginModal" bothShownPage).page = true ∧
    (closeModal "loginModal" bothShownPage).page.overflow = "auto" ∧
    scrollUnlocked (closeModal "loginModal" bothShownPage).page = true ∧
    scrollLocked (closeModal "loginModal" bothShownPage).page = false ∧
    (∀ J, J ≠ "loginModal" → visible bothShownPage J = true →
      visible (closeModal "loginModal" bothShownPage).page J = true ∧
        (closeModal "loginModal" bothShownPage).page.overflow = "auto")) :=
  ⟨by decide, scroll_lock_coupling bothShownPage "loginModal" (by decide)⟩

theorem openModal_idem (s : Page) (K : String) :
    openModal K (openModal K s).page = openModal K s := by
  cases h : getElementById s K with
  | none =>
    rw [openModal_none h]
    exact openModal_none h
  | some n =>
    have h2 : getElementById (openModal K s).page K = some n := by
      rw [getElementById_openModal, h]
    rw [openModal_some h2, classListOf_openModal_same h, tokensRemove_idem, openModal_timers]
    rw [openModal_some h]
    have he : (Outcome.ok
        { elements := (setClassList s n (tokensRemove (classListOf s n) "hidden")).elements,
          overflow := "hidden", timers := s.timers }).page.elements =
        (setClassList s n (tokensRemove (classListOf s n) "hidden")).elements := rfl
    rw [setClassList_elements_congr he, setClassList_setClassList]

theorem closeModal_idem (s : Page) (K : String) :
    closeModal K (closeModal K s).page = closeModal K s := by
  cases h : getElementById s K with
  | none =>
    rw [closeModal_none h]
    exact closeModal_none h
  | some n =>
    have h2 : getElementById (closeModal K s).page K = some n := by
      rw [getElementById_closeModal, h]
    rw [closeModal_some h2, classListOf_closeModal_same h, tokensAdd_idem, closeModal_timers]
    rw [closeModal_some h]
    have he : (Outcome.ok
        { elements := (setClassList s n (tokensAdd (classListOf s n) "hidden")).elements,
          overflow := "auto", timers := s.timers }).page.elements =
        (setClassList s n (tokensAdd (classListOf s n) "hidden")).elements := rfl
    rw [setClassList_elements_congr he, setClassList_setClassList]

/-- C3: `openModal` and `closeModal` are idempotent. For every page `s` and
every key `K` that resolves, `openModal(K)` run on the page left by
`openModal(K)` gives the very same outcome (all elements, the overflow style,
the pending timers, normal completion) with `K` visible, and likewise
`closeModal(K)` after `closeModal(K)` with `K` hidden: no call toggles. -/
theorem open_close_idempotent (s : Page) (K : String)
    (h : (getElementById s K).isSome = true) :
    (openModal K (openModal K s).page = openModal K s ∧
      (openModal K s).error = none ∧
      visible (openModal K (openModal K s).page).page K = true) ∧
    (closeModal K (closeModal K s).page = closeModal K s ∧
      (closeModal K s).error = none ∧
      hidden (closeModal K (closeModal K s).page).page K = true) := by
  obtain ⟨n, hn⟩ := Option.isSome_iff_exists.mp h
  refine ⟨⟨openModal_idem s K, openModal_error hn, ?_⟩,
    ⟨closeModal_idem s K, closeModal_error hn, ?_⟩⟩
  · rw [openModal_idem]
    exact visible_openModal_same hn
  · rw [closeModal_idem]
    exact hidden_closeModal_same hn

/-- The statement of C3 at the sample page and the key `registerModal`. -/
theorem open_close_idempotent_witness :
    (getElementById samplePage "registerModal").isSome = true ∧
    ((openModal "registerModal" (openModal "registerModal" samplePage).page =
        openModal "registerModal" samplePage ∧
      (openModal "registerModal" samplePage).error = none ∧
      visible (openModal "registerModal" (openModal "registerModal" samplePage).page).page
        "registerModal" = true) ∧
    (closeModal "registerModal" (closeModal "registerModal" samplePage).page =
        closeModal "registerModal" samplePage ∧
      (closeModal "registerModal" samplePage).error = none ∧
      hidden (closeModal "registerModal" (closeModal "registerModal" samplePage).page).page
        "registerModal" = true)) :=
  ⟨by decide, open_close_idempotent samplePage "registerModal" (by decide)⟩

/-! ## Switching between the two modals -/

theorem visible_congr {s t : Page} (h : s.elements = t.elements) (key : String) :
    visible s key = visible t key := by
  simp [visible, getElementById_congr h, classListOf_congr h]

theorem hidden_congr {s t : Page} (h : s.elements = t.elements) (key : String) :
    hidden s key = hidden t key := by
  simp [hidden, getElementById_congr h, classListOf_congr h]

theorem switchToRegister_some {s : Page} {n : Nat}
    (h : getElementById s "loginModal" = some n) :
    switchToRegister s = Outcome.ok
      { (closeModal "loginModal" s).page with
        timers := s.timers ++ [⟨Callback.openRegisterModal, 300⟩] } := by
  unfold switchToRegister
  have ht := closeModal_timers s "loginModal"
  rw [closeModal_some h] at ht ⊢
  simp [Outcome.andThen, Outcome.ok, setTimeout]

theorem switchToLogin_some {s : Page} {n : Nat}
    (h : getElementById s "registerModal" = some n) :
    switchToLogin s = Outcome.ok
      { (closeModal "registerModal" s).page with
        timers := s.timers ++ [⟨Callback.openLoginModal, 300⟩] } := by
  unfold switchToLogin
  have ht := closeModal_timers s "registerModal"
  rw [closeModal_some h] at ht ⊢
  simp [Outcome.andThen, Outcome.ok, setTimeout]

theorem fireTimer_last {s : Page} {l : List Timer} {t : Timer} (h : s.timers = l ++ [t]) :
    fireTimer l.length s = t.callback.run { s with timers := l } := by
  unfold fireTimer
  simp [h, List.eraseIdx_append_of_length_le]

theorem openModal_page_timers_irrel (K : String) (s : Page) (l : List Timer) :
    (openModal K { s with timers := l }).error = (openModal K s).error ∧
    (openModal K { s with timers := l }).page.elements = (openModal K s).page.elements ∧
    (openModal K { s with timers := l }).page.overflow = (openModal K s).page.overflow ∧
    (openModal K { s with timers := l }).page.timers = l := by
  have hg : getElementById { s with timers := l } K = getElementById s K :=
    getElementById_congr rfl K
  cases h : getElementById s K with
  | none =>
    rw [h] at hg
    rw [openModal_none h, openModal_none hg]
    exact ⟨rfl, rfl, rfl, rfl⟩
  | some n =>
    rw [h] at hg
    rw [openModal_some h, openModal_some hg]
    refine ⟨rfl, ?_, rfl, rfl⟩
    have hc : classListOf { s with timers := l } n = classListOf s n := classListOf_congr rfl n
    simp only [Outcome.ok, hc]
    exact setClassList_elements_congr (s := { s with timers := l }) (t := s) rfl n _

/-- The shared content of C4 for a switch that closes `X` and schedules the
opening of `Y`. -/
theorem switch_then_fire {s : Page} (s1 : Page) {X Y : String} (cb : Callback) {n m : Nat}
    (hXY : X ≠ Y)
    (hX : getElementById s X = some n) (hY : getElementById s Y = some m)
    (hrun : cb.run = openModal Y)
    (hel : s1.elements = (closeModal X s).page.elements)
    (htm : s1.timers = s.timers ++ [⟨cb, 300⟩]) :
    hidden s1 X = true ∧
    (fireTimer s.timers.length s1).error = none ∧
    visible (fireTimer s.timers.length s1).page Y = true ∧
    hidden (fireTimer s.timers.length s1).page X = true ∧
    scrollLocked (fireTimer s.timers.length s1).page = true ∧
    (fireTimer s.timers.length s1).page.timers = s.timers := by
  have hhid : hidden s1 X = true := by
    rw [hidden_congr hel]
    exact hidden_closeModal_same hX
  have hY1 : getElementById s1 Y = some m := by
    rw [getElementById_congr hel, getElementById_closeModal, hY]
  rw [fireTimer_last htm]
  simp only [hrun]
  obtain ⟨h1, h2, h3, h4⟩ := openModal_page_timers_irrel Y s1 s.timers
  refine ⟨hhid, ?_, ?_, ?_, ?_, h4⟩
  · rw [h1]
    exact openModal_error hY1
  · rw [visible_congr h2]
    exact visible_openModal_same hY1
  · rw [hidden_congr h2, hidden_openModal_ne s1 hXY, hhid]
  · simp [scrollLocked, h3, openModal_overflow hY1]

/-- C4: from every page in which both modals exist, `switchToRegister()`
completes, leaves `loginModal` hidden and has scheduled exactly one more
timer, the opening of `registerModal` with delay 300; when that timer fires
next, the callback completes, `registerModal` is visible, `loginModal` is
still hidden, the scroll is locked and the timer is no longer pending.
`switchToLogin()` does the same with the two modals exchanged. -/
theorem switch_schedules_delayed_open (s : Page) (h : bothExist s) :
    ((switchToRegister s).error = none ∧
      hidden (switchToRegister s).page "loginModal" = true ∧
      (switchToRegister s).page.timers = s.timers ++ [⟨Callback.openRegisterModal, 300⟩] ∧
      (fireTimer s.timers.length (switchToRegister s).page).error = none ∧
      visible (fireTimer s.timers.length (switchToRegister s).page).page "registerModal" = true ∧
      hidden (fireTimer s.timers.length (switchToRegister s).page).page "loginModal" = true ∧
      scrollLocked (fireTimer s.timers.length (switchToRegister s).page).page = true ∧
      (fireTimer s.timers.length (switchToRegister s).page).page.timers = s.timers) ∧
    ((switchToLogin s).error = none ∧
      hidden (switchToLogin s).page "registerModal" = true ∧
      (switchToLogin s).page.timers = s.timers ++ [⟨Callback.openLoginModal, 300⟩] ∧
      (fireTimer s.timers.length (switchToLogin s).page).error = none ∧
      visible (fireTimer s.timers.length (switchToLogin s).page).page "loginModal" = true ∧
      hidden (fireTimer s.timers.length (switchToLogin s).page).page "registerModal" = true ∧
      scrollLocked (fireTimer s.timers.length (switchToLogin s).page).page = true ∧
      (fireTimer s.timers.length (switchToLogin s).page).page.timers = s.timers) := by
  obtain ⟨n, hn⟩ := Option.isSome_iff_exists.mp h.1
  obtain ⟨m, hm⟩ := Option.isSome_iff_exists.mp h.2
  constructor
  · have hs := switchToRegister_some hn
    have key := switch_then_fire (switchToRegister s).page Callback.openRegisterModal
      (by decide) hn hm rfl (by rw [hs]; rfl) (by rw [hs]; rfl)
    exact ⟨by rw [hs]; rfl, key.1, by rw [hs]; rfl, key.2⟩
  · have hs := switchToLogin_some hm
    have key := switch_then_fire (switchToLogin s).page Callback.openLoginModal
      (by decide) hm hn rfl (by rw [hs]; rfl) (by rw [hs]; rfl)
    exact ⟨by rw [hs]; rfl, key.1, by rw [hs]; rfl, key.2⟩

/-- The statement of C4 at the sample page, where no timer is pending before
the call. -/
theorem switch_schedules_delayed_open_witness :
    bothExist samplePage ∧
    ((switchToRegister samplePage).error = none ∧
      hidden (switchToRegister samplePage).page "loginModal" = true ∧
      (switchToRegister samplePage).page.timers = [⟨Callback.openRegisterModal, 300⟩] ∧
      (fireTimer 0 (switchToRegister samplePage).page).error = none ∧
      visible (fireTimer 0 (switchToRegister samplePage).page).page "registerModal" = true ∧
      hidden (fireTimer 0 (switchToRegister samplePage).page).page "loginModal" = true ∧
      scrollLocked (fireTimer 0 (switchToRegister samplePage).page).page = true ∧
      (fireTimer 0 (switchToRegister samplePage).page).page.timers = []) ∧
    ((switchToLogin samplePage).error = none ∧
      hidden (switchToLogin samplePage).page "registerModal" = true ∧
      (switchToLogin samplePage).page.timers = [⟨Callback.openLoginModal, 300⟩] ∧
      (fireTimer 0 (switchToLogin samplePage).page).error = none ∧
      visible (fireTimer 0 (switchToLogin samplePage).page).page "loginModal" = true ∧
      hidden (fireTimer 0 (switchToLogin samplePage).page).page "registerModal" = true ∧
      scrollLocked (fireTimer 0 (switchToLogin samplePage).page).page = true ∧
      (fireTimer 0 (switchToLogin samplePage).page).page.timers = []) :=
  ⟨by decide, switch_schedules_delayed_open samplePage (by decide)⟩

/-! ## The click listener -/

theorem andThen_ok (s : Page) (k : Page → Outcome) : (Outcome.ok s).andThen k = k s := rfl

theorem andThen_of_error_none {o : Outcome} (h : o.error = none) (k : Page → Outcome) :
    o.andThen k = k o.page := by
  simp [Outcome.andThen, h]

theorem forEach_modals (f : String → Page → Outcome) (s : Page) :
    forEach modals f s =
      (f "loginModal" s).andThen (fun s1 => (f "registerModal" s1).andThen Outcome.ok) := rfl

theorem andThen_ok_right (o : Outcome) : o.andThen Outcome.ok = o := by
  obtain ⟨p, e⟩ := o
  cases e <;> rfl

theorem onClickEach_hit {s : Page} {target : Nat} {M : String}
    (h : getElementById s M = some target) : onClickEach target M s = closeModal M s := by
  simp [onClickEach, h]

theorem onClickEach_miss {s : Page} {target : Nat} {M : String}
    (h : getElementById s M ≠ some target) : onClickEach target M s = Outcome.ok s := by
  unfold onClickEach
  simp only []
  rw [if_neg]
  exact fun hc => h hc.symm

theorem onClick_login {s : Page} {target : Nat}
    (h : getElementById s "loginModal" = some target) :
    onClick target s = closeModal "loginModal" s := by
  have h2 : getElementById (closeModal "loginModal" s).page "registerModal" ≠ some target := by
    rw [getElementById_closeModal]
    intro hc
    exact getElementById_ne h hc (by decide) rfl
  unfold onClick
  rw [forEach_modals, onClickEach_hit h, andThen_of_error_none (closeModal_error h),
    onClickEach_miss h2]
  rw [andThen_ok, closeModal_some h]
  rfl

theorem onClick_register {s : Page} {target : Nat}
    (h : getElementById s "registerModal" = some target) :
    onClick target s = closeModal "registerModal" s := by
  have h1 : getElementById s "loginModal" ≠ some target := by
    intro hc
    exact getElementById_ne hc h (by decide) rfl
  unfold onClick
  rw [forEach_modals, onClickEach_miss h1, andThen_ok, onClickEach_hit h, andThen_ok_right]

theorem onClick_neither {s : Page} {target : Nat}
    (h1 : getElementById s "loginModal" ≠ some target)
    (h2 : getElementById s "registerModal" ≠ some target) :
    onClick target s = Outcome.ok s := by
  unfold onClick
  rw [forEach_modals, onClickEach_miss h1, andThen_ok, onClickEach_miss h2, andThen_ok]

theorem onClick_error (s : Page) (target : Nat) : (onClick target s).error = none := by
  by_cases h1 : getElementById s "loginModal" = some target
  · rw [onClick_login h1]
    exact closeModal_error h1
  · by_cases h2 : getElementById s "registerModal" = some target
    · rw [onClick_register h2]
      exact closeModal_error h2
    · rw [onClick_neither h1 h2]
      rfl

/-- For C5, the claim as stated fails: with both modals shown, a click on the
root of `registerModal` is a click on an element other than the root of
`loginModal`, and the listener changes the page (it closes `registerModal`
and unlocks the scroll). -/
theorem click_other_root_changes_page :
    ¬ (∀ (s : Page) (target : Nat) (M : String), M ∈ modals →
        getElementById s M ≠ some target → (onClick target s).page = s) := by
  intro h
  exact absurd (h bothShownPage 2 "loginModal" (by decide) (by decide)) (by decide)

/-- C5 (amended): for every page, every click target and each `M` of the two
modals: when the target is the root of `M`, the listener completes with `M`
hidden and the body overflow `auto`; when the target is any other node, the
visibility of `M` is as before, so a visible `M` stays visible; and when the
target is the root of neither modal, the listener leaves the whole page as it
was. The listener never raises. -/
theorem click_dismissal (s : Page) (target : Nat) :
    (∀ M, M ∈ modals → getElementById s M = some target →
      hidden (onClick target s).page M = true ∧
      (onClick target s).page.overflow = "auto" ∧
      scrollUnlocked (onClick target s).page = true) ∧
    (∀ M, M ∈ modals → getElementById s M ≠ some target →
      visible (onClick target s).page M = visible s M ∧
      hidden (onClick target s).page M = hidden s M) ∧
    (getElementById s "loginModal" ≠ some target →
      getElementById s "registerModal" ≠ some target →
      onClick target s = Outcome.ok s) ∧
    (onClick target s).error = none := by
  by_cases h1 : getElementById s "loginModal" = some target
  · have h2 : getElementById s "registerModal" ≠ some target :=
      fun hc => getElementById_ne h1 hc (by decide) rfl
    rw [onClick_login h1]
    refine ⟨?_, ?_, fun hc => absurd h1 hc, closeModal_error h1⟩
    · intro M hM hres
      simp only [modals, List.mem_cons, List.mem_singleton, List.mem_nil_iff, or_false] at hM
      rcases hM with rfl | rfl
      · have ho := closeModal_overflow h1
        exact ⟨hidden_closeModal_same h1, ho, by simp [scrollUnlocked, ho]⟩
      · exact absurd hres h2
    · intro M hM hres
      simp only [modals, List.mem_cons, List.mem_singleton, List.mem_nil_iff, or_false] at hM
      rcases hM with rfl | rfl
      · exact absurd h1 hres
      · exact ⟨visible_closeModal_ne s (by decide), hidden_closeModal_ne s (by decide)⟩
  · by_cases h2 : getElementById s "registerModal" = some target
    · rw [onClick_register h2]
      refine ⟨?_, ?_, fun _ hc => absurd h2 hc, closeModal_error h2⟩
      · intro M hM hres
        simp only [modals, List.mem_cons, List.mem_singleton, List.mem_nil_iff, or_false] at hM
        rcases hM with rfl | rfl
        · exact absurd hres h1
        · have ho := closeModal_overflow h2
          exact ⟨hidden_closeModal_same h2, ho, by simp [scrollUnlocked, ho]⟩
      · intro M hM hres
        simp only [modals, List.mem_cons, List.mem_singleton, List.mem_nil_iff, or_false] at hM
        rcases hM with rfl | rfl
        · exact ⟨visible_closeModal_ne s (by decide), hidden_closeModal_ne s (by decide)⟩
        · exact absurd h2 hres
    · rw [onClick_neither h1 h2]
      refine ⟨?_, ?_, fun _ _ => rfl, rfl⟩
      · intro M hM hres
        simp only [modals, List.mem_cons, List.mem_singleton, List.mem_nil_iff, or_false] at hM
        rcases hM with rfl | rfl
        · exact absurd hres h1
        · exact absurd hres h2
      · intro M _ _
        exact ⟨rfl, rfl⟩

/-- The statement of C5 at the page with both modals shown: a click on the
root of `loginModal` (node 0), and a click on its content (node 1). -/
theorem click_dismissal_witness :
    (hidden (onClick 0 bothShownPage).page "loginModal" = true ∧
      (onClick 0 bothShownPage).page.overflow = "auto" ∧
      scrollUnlocked (onClick 0 bothShownPage).page = true) ∧
    (visible (onClick 1 bothShownPage).page "loginModal" = visible bothShownPage "loginModal" ∧
      hidden (onClick 1 bothShownPage).page "loginModal" = hidden bothShownPage "loginModal") ∧
    onClick 1 bothShownPage = Outcome.ok bothShownPage :=
  ⟨(click_dismissal bothShownPage 0).1 "loginModal" (by decide) (by decide),
   (click_dismissal bothShownPage 1).2.1 "loginModal" (by decide) (by decide),
   (click_dismissal bothShownPage 1).2.2.1 (by decide) (by decide)⟩

/-! ## The keydown listener -/

theorem onKeydownEach_some {s : Page} {K : String} {n : Nat}
    (h : getElementById s K = some n) :
    onKeydownEach K s = if hidden s K = true then Outcome.ok s else closeModal K s := by
  unfold onKeydownEach hidden
  rw [h]
  simp only []
  by_cases hc : tokensContains (classListOf s n) "hidden" = true <;> simp [hc]

theorem onKeydownEach_none {s : Page} {K : String} (h : getElementById s K = none) :
    onKeydownEach K s = Outcome.throw s JsError.typeError := by
  simp [onKeydownEach, h]

theorem onKeydownEach_error {s : Page} {K : String} {n : Nat}
    (h : getElementById s K = some n) : (onKeydownEach K s).error = none := by
  rw [onKeydownEach_some h]
  split
  · rfl
  · exact closeModal_error h

theorem getElementById_onKeydownEach (s : Page) (K key : String) :
    getElementById (onKeydownEach K s).page key = getElementById s key := by
  cases h : getElementById s K with
  | none => rw [onKeydownEach_none h]; rfl
  | some n =>
    rw [onKeydownEach_some h]
    split
    · rfl
    · exact getElementById_closeModal s K key

theorem hidden_onKeydownEach_same {s : Page} {K : String} {n : Nat}
    (h : getElementById s K = some n) : hidden (onKeydownEach K s).page K = true := by
  rw [onKeydownEach_some h]
  split
  · assumption
  · exact hidden_closeModal_same h

theorem hidden_onKeydownEach_ne (s : Page) {K J : String} (hJK : J ≠ K) :
    hidden (onKeydownEach K s).page J = hidden s J := by
  cases h : getElementById s K with
  | none => rw [onKeydownEach_none h]; rfl
  | some n =>
    rw [onKeydownEach_some h]
    split
    · rfl
    · exact hidden_closeModal_ne s hJK

theorem onKeydown_escape (s : Page) :
    onKeydown "Escape" s =
      (onKeydownEach "loginModal" s).andThen (fun s1 => onKeydownEach "registerModal" s1) := by
  unfold onKeydown
  rw [if_pos rfl, forEach_modals]
  congr 1
  funext s1
  exact andThen_ok_right _

theorem onKeydown_other {key : String} (h : key ≠ "Escape") (s : Page) :
    onKeydown key s = Outcome.ok s := by
  unfold onKeydown
  rw [if_neg h]

/-- C6: for every page in which both modals exist, the keydown listener run
with key `Escape` completes and leaves both `loginModal` and `registerModal`
hidden (also when both were visible); when both were already hidden the
outcome is the unchanged page, overflow style included, with no exception;
and for every key other than `Escape` the outcome is the unchanged page. -/
theorem escape_dismissal (s : Page) (h : bothExist s) :
    ((onKeydown "Escape" s).error = none ∧
      hidden (onKeydown "Escape" s).page "loginModal" = true ∧
      hidden (onKeydown "Escape" s).page "registerModal" = true) ∧
    (hidden s "loginModal" = true → hidden s "registerModal" = true →
      onKeydown "Escape" s = Outcome.ok s) ∧
    (∀ key, key ≠ "Escape" → onKeydown key s = Outcome.ok s) := by
  obtain ⟨n, hn⟩ := Option.isSome_iff_exists.mp h.1
  obtain ⟨m, hm⟩ := Option.isSome_iff_exists.mp h.2
  have hm1 : getElementById (onKeydownEach "loginModal" s).page "registerModal" = some m := by
    rw [getElementById_onKeydownEach, hm]
  have hrun : onKeydown "Escape" s =
      onKeydownEach "registerModal" (onKeydownEach "loginModal" s).page := by
    rw [onKeydown_escape, andThen_of_error_none (onKeydownEach_error hn)]
  refine ⟨⟨?_, ?_, ?_⟩, ?_, fun key hk => onKeydown_other hk s⟩
  · rw [hrun]
    exact onKeydownEach_error hm1
  · rw [hrun, hidden_onKeydownEach_ne _ (by decide)]
    exact hidden_onKeydownEach_same hn
  · rw [hrun]
    exact hidden_onKeydownEach_same hm1
  · intro hl hr
    have h1 : onKeydownEach "loginModal" s = Outcome.ok s := by
      rw [onKeydownEach_some hn, if_pos hl]
    rw [hrun, h1]
    show onKeydownEach "registerModal" s = Outcome.ok s
    rw [onKeydownEach_some hm, if_pos hr]

/-- The statement of C6 at the page with both modals shown, and its no-op
part at the sample page, where both are hidden. -/
theorem escape_dismissal_witness :
    bothExist bothShownPage ∧
    ((onKeydown "Escape" bothShownPage).error = none ∧
      hidden (onKeydown "Escape" bothShownPage).page "loginModal" = true ∧
      hidden (onKeydown "Escape" bothShownPage).page "registerModal" = true) ∧
    onKeydown "Escape" samplePage = Outcome.ok samplePage ∧
    onKeydown "Enter" bothShownPage = Outcome.ok bothShownPage :=
  ⟨by decide, (escape_dismissal bothShownPage (by decide)).1,
   (escape_dismissal samplePage (by decide)).2.1 (by decide) (by decide),
   (escape_dismissal bothShownPage (by decide)).2.2 "Enter" (by decide)⟩

/-! ## Exceptions -/

theorem openModal_error_iff (s : Page) (K : String) :
    (openModal K s).error = some JsError.typeError ↔ getElementById s K = none := by
  cases h : getElementById s K with
  | none => rw [openModal_none h]; simp [Outcome.throw]
  | some n => rw [openModal_error h]; simp

theorem closeModal_error_iff (s : Page) (K : String) :
    (closeModal K s).error = some JsError.typeError ↔ getElementById s K = none := by
  cases h : getElementById s K with
  | none => rw [closeModal_none h]; simp [Outcome.throw]
  | some n => rw [closeModal_error h]; simp

theorem error_ne_none_iff (o : Outcome) :
    o.error ≠ none ↔ o.error = some JsError.typeError := by
  cases h : o.error with
  | none => simp
  | some e => cases e; simp

theorem Callback.run_eq (cb : Callback) : cb.run = openModal cb.modalId := by
  cases cb <;> rfl

theorem switchToRegister_error_iff (s : Page) :
    (switchToRegister s).error ≠ none ↔ getElementById s "loginModal" = none := by
  cases h : getElementById s "loginModal" with
  | none =>
    unfold switchToRegister
    rw [closeModal_none h]
    simp [Outcome.andThen, Outcome.throw]
  | some n =>
    rw [switchToRegister_some h]
    simp [Outcome.ok]

theorem switchToLogin_error_iff (s : Page) :
    (switchToLogin s).error ≠ none ↔ getElementById s "registerModal" = none := by
  cases h : getElementById s "registerModal" with
  | none =>
    unfold switchToLogin
    rw [closeModal_none h]
    simp [Outcome.andThen, Outcome.throw]
  | some n =>
    rw [switchToLogin_some h]
    simp [Outcome.ok]

theorem onKeydown_escape_error_iff (s : Page) :
    (onKeydown "Escape" s).error ≠ none ↔
      (getElementById s "loginModal" = none ∨ getElementById s "registerModal" = none) := by
  rw [onKeydown_escape]
  cases hl : getElementById s "loginModal" with
  | none =>
    rw [onKeydownEach_none hl]
    simp [Outcome.andThen, Outcome.throw]
  | some n =>
    rw [andThen_of_error_none (onKeydownEach_error hl)]
    cases hr : getElementById s "registerModal" with
    | none =>
      have hr1 : getElementById (onKeydownEach "loginModal" s).page "registerModal" = none := by
        rw [getElementById_onKeydownEach, hr]
      rw [onKeydownEach_none hr1]
      simp [Outcome.throw]
    | some m =>
      have hr1 : getElementById (onKeydownEach "loginModal" s).page "registerModal" = some m := by
        rw [getElementById_onKeydownEach, hr]
      simp [onKeydownEach_error hr1]

theorem fireTimer_error_iff (s : Page) (i : Nat) :
    (fireTimer i s).error ≠ none ↔
      ∃ t, s.timers[i]? = some t ∧ getElementById s t.callback.modalId = none := by
  unfold fireTimer
  cases ht : s.timers[i]? with
  | none => simp [Outcome.ok]
  | some t =>
    simp only [Callback.run_eq]
    rw [error_ne_none_iff, openModal_error_iff]
    have hg : getElementById { s with timers := s.timers.eraseIdx i } t.callback.modalId =
        getElementById s t.callback.modalId := getElementById_congr rfl _
    rw [hg]
    simp

/-- C7: `openModal(K)` and `closeModal(K)` raise exactly when `K` does not
resolve to an element, and then leave the page (all class lists, the overflow
style, the timers) as it was. A failed lookup is also the only source of an
exception in the rest of the script: `switchToRegister` and `switchToLogin`
raise exactly when the modal they close is missing, the click listener never
raises, the keydown listener raises exactly for `Escape` with one of the two
modals missing, and a firing timer raises exactly when the modal its callback
opens is missing. -/
theorem lookup_failure_only_error (s : Page) (K : String) :
    ((openModal K s).error = some JsError.typeError ↔ getElementById s K = none) ∧
    ((closeModal K s).error = some JsError.typeError ↔ getElementById s K = none) ∧
    ((openModal K s).error ≠ none → (openModal K s).page = s) ∧
    ((closeModal K s).error ≠ none → (closeModal K s).page = s) ∧
    ((switchToRegister s).error ≠ none ↔ getElementById s "loginModal" = none) ∧
    ((switchToLogin s).error ≠ none ↔ getElementById s "registerModal" = none) ∧
    (∀ target, (onClick target s).error = none) ∧
    (∀ key, (onKeydown key s).error ≠ none ↔
      (key = "Escape" ∧
        (getElementById s "loginModal" = none ∨ getElementById s "registerModal" = none))) ∧
    (∀ i, (fireTimer i s).error ≠ none ↔
      ∃ t, s.timers[i]? = some t ∧ getElementById s t.callback.modalId = none) := by
  refine ⟨openModal_error_iff s K, closeModal_error_iff s K, ?_, ?_,
    switchToRegister_error_iff s, switchToLogin_error_iff s,
    fun target => (onClick_error s target), ?_, fireTimer_error_iff s⟩
  · intro he
    have hn := (openModal_error_iff s K).mp ((error_ne_none_iff _).mp he)
    rw [openModal_none hn]
    rfl
  · intro he
    have hn := (closeModal_error_iff s K).mp ((error_ne_none_iff _).mp he)
    rw [closeModal_none hn]
    rfl
  · intro key
    by_cases hk : key = "Escape"
    · subst hk
      simp [onKeydown_escape_error_iff]
    · rw [onKeydown_other hk]
      simp [Outcome.ok, hk]

/-- The statement of C7 where a lookup fails: on the page without the
register modal, `openModal('registerModal')` raises and leaves the page as it
was. -/
theorem lookup_failure_only_error_witness :
    (openModal "registerModal" loginOnlyPage).error ≠ none ∧
    (openModal "registerModal" loginOnlyPage).page = loginOnlyPage ∧
    (closeModal "registerModal" loginOnlyPage).error ≠ none ∧
    (closeModal "registerModal" loginOnlyPage).page = loginOnlyPage :=
  ⟨by decide,
   (lookup_failure_only_error loginOnlyPage "registerModal").2.2.1 (by decide),
   by decide,
   (lookup_failure_only_error loginOnlyPage "registerModal").2.2.2.1 (by decide)⟩

/-! ## Reachable pages and the scroll lock -/

theorem getElementById_isSome_of_hidden {s : Page} {K : String} (h : hidden s K = true) :
    (getElementById s K).isSome = true := by
  unfold hidden at h
  cases hg : getElementById s K with
  | none => rw [hg] at h; cases h
  | some n => rfl

theorem bothExist_of_initial {s : Page} (h : initial s) : bothExist s :=
  ⟨getElementById_isSome_of_hidden h.1, getElementById_isSome_of_hidden h.2.1⟩

theorem onKeydownEach_page_cases (s : Page) (K : String) :
    (onKeydownEach K s).page = s ∨ (onKeydownEach K s).page.overflow = "auto" := by
  cases h : getElementById s K with
  | none => left; rw [onKeydownEach_none h]; rfl
  | some n =>
    rw [onKeydownEach_some h]
    split
    · left; rfl
    · right; exact closeModal_overflow h

theorem mem_modals {K : String} (h : K ∈ modals) : K = "loginModal" ∨ K = "registerModal" := by
  simpa [modals] using h

theorem Callback.modalId_mem (cb : Callback) : cb.modalId ∈ modals := by
  cases cb <;> decide

/-- What one step can do to a page with both modals: the lookups are as
before, and either the elements and the overflow style are untouched, or the
overflow style is now `auto`, or one of the two modals is now visible. -/
theorem step_effect (s : Page) (e : Event) (hb : bothExist s) (hr : e.registered = true) :
    (∀ key, getElementById (step s e) key = getElementById s key) ∧
    (((step s e).elements = s.elements ∧ (step s e).overflow = s.overflow) ∨
      (step s e).overflow = "auto" ∨
      (visible (step s e) "loginModal" = true ∨ visible (step s e) "registerModal" = true)) := by
  obtain ⟨n, hn⟩ := Option.isSome_iff_exists.mp hb.1
  obtain ⟨m, hm⟩ := Option.isSome_iff_exists.mp hb.2
  cases e with
  | callOpen K =>
    refine ⟨fun key => getElementById_openModal s K key, Or.inr (Or.inr ?_)⟩
    have hK : K ∈ modals := by simpa [Event.registered] using hr
    rcases mem_modals hK with rfl | rfl
    · exact Or.inl (visible_openModal_same hn)
    · exact Or.inr (visible_openModal_same hm)
  | callClose K =>
    refine ⟨fun key => getElementById_closeModal s K key, Or.inr (Or.inl ?_)⟩
    have hK : K ∈ modals := by simpa [Event.registered] using hr
    rcases mem_modals hK with rfl | rfl
    · exact closeModal_overflow hn
    · exact closeModal_overflow hm
  | callSwitchToRegister =>
    have hs : step s Event.callSwitchToRegister = (switchToRegister s).page := rfl
    rw [hs, switchToRegister_some hn]
    refine ⟨fun key => ?_, Or.inr (Or.inl (closeModal_overflow hn))⟩
    exact (getElementById_congr rfl key).trans (getElementById_closeModal s "loginModal" key)
  | callSwitchToLogin =>
    have hs : step s Event.callSwitchToLogin = (switchToLogin s).page := rfl
    rw [hs, switchToLogin_some hm]
    refine ⟨fun key => ?_, Or.inr (Or.inl (closeModal_overflow hm))⟩
    exact (getElementById_congr rfl key).trans (getElementById_closeModal s "registerModal" key)
  | click target =>
    have hs : step s (Event.click target) = (onClick target s).page := rfl
    rw [hs]
    by_cases h1 : getElementById s "loginModal" = some target
    · rw [onClick_login h1]
      exact ⟨fun key => getElementById_closeModal s _ key, Or.inr (Or.inl (closeModal_overflow h1))⟩
    · by_cases h2 : getElementById s "registerModal" = some target
      · rw [onClick_register h2]
        exact ⟨fun key => getElementById_closeModal s _ key,
          Or.inr (Or.inl (closeModal_overflow h2))⟩
      · rw [onClick_neither h1 h2]
        exact ⟨fun _ => rfl, Or.inl ⟨rfl, rfl⟩⟩
  | keydown key =>
    have hs : step s (Event.keydown key) = (onKeydown key s).page := rfl
    rw [hs]
    by_cases hk : key = "Escape"
    · subst hk
      rw [onKeydown_escape, andThen_of_error_none (onKeydownEach_error hn)]
      refine ⟨fun key => ?_, ?_⟩
      · rw [getElementById_onKeydownEach, getElementById_onKeydownEach]
      · rcases onKeydownEach_page_cases (onKeydownEach "loginModal" s).page "registerModal"
          with h2 | h2
        · rw [h2]
          rcases onKeydownEach_page_cases s "loginModal" with h1 | h1
          · rw [h1]
            exact Or.inl ⟨rfl, rfl⟩
          · exact Or.inr (Or.inl h1)
        · exact Or.inr (Or.inl h2)
    · rw [onKeydown_other hk]
      exact ⟨fun _ => rfl, Or.inl ⟨rfl, rfl⟩⟩
  | timer i =>
    have hs : step s (Event.timer i) = (fireTimer i s).page := rfl
    rw [hs]
    unfold fireTimer
    cases ht : s.timers[i]? with
    | none => exact ⟨fun _ => rfl, Or.inl ⟨rfl, rfl⟩⟩
    | some t =>
      simp only [Callback.run_eq]
      obtain ⟨_, h2, _, _⟩ := openModal_page_timers_irrel t.callback.modalId s (s.timers.eraseIdx i)
      refine ⟨fun key => ?_, Or.inr (Or.inr ?_)⟩
      · rw [getElementById_congr h2, getElementById_openModal]
      · rw [visible_congr h2, visible_congr h2]
        rcases mem_modals t.callback.modalId_mem with hc | hc
        · rw [hc]
          exact Or.inl (visible_openModal_same hn)
        · rw [hc]
          exact Or.inr (visible_openModal_same hm)

theorem lockedHasVisible_step {s : Page} {e : Event} (h : lockedHasVisible s)
    (hr : e.registered = true) : lockedHasVisible (step s e) := by
  obtain ⟨hg, hcase⟩ := step_effect s e h.1 hr
  refine ⟨?_, ?_⟩
  · unfold bothExist
    rw [hg, hg]
    exact h.1
  · intro hl
    rcases hcase with ⟨hel, hov⟩ | hauto | hvis
    · rw [visible_congr hel, visible_congr hel]
      apply h.2
      simpa [scrollLocked, hov] using hl
    · simp [scrollLocked, hauto] at hl
    · exact hvis

theorem lockedHasVisible_runEvents (es : List Event) (s : Page) (h : lockedHasVisible s)
    (hr : ∀ e ∈ es, e.registered = true) : lockedHasVisible (runEvents s es) := by
  induction es generalizing s with
  | nil => exact h
  | cons e rest ih =>
    have h1 := lockedHasVisible_step h (hr e (List.mem_cons_self _ _))
    exact ih (step s e) h1 (fun x hx => hr x (List.mem_cons_of_mem _ hx))

/-- For C8, the claim as stated fails: from the sample page (both modals
hidden, scroll not locked), opening `loginModal`, opening `registerModal` and
closing `loginModal` leaves `registerModal` visible with the scroll
unlocked. -/
theorem scroll_lock_iff_visible_fails :
    ¬ (∀ (s : Page) (es : List Event), initial s → (∀ e ∈ es, e.registered = true) →
        (scrollLocked (runEvents s es) = true ↔
          (visible (runEvents s es) "loginModal" = true ∨
            visible (runEvents s es) "registerModal" = true))) := by
  intro h
  have hc := h samplePage
    [Event.callOpen "loginModal", Event.callOpen "registerModal", Event.callClose "loginModal"]
    (by decide) (by decide)
  exact absurd (hc.mpr (Or.inr (by decide))) (by decide)

/-- C8 (amended): in every page reached from an initial page (both modals
hidden, scroll not locked, no timer pending) by a finite sequence of
`openModal`/`closeModal` calls on the two registered keys,
`switchToRegister`/`switchToLogin` calls, timer firings, click events and
keydown events, if the scroll is locked then at least one of `loginModal` and
`registerModal` is visible. -/
theorem scroll_locked_implies_visible (s : Page) (es : List Event) (h0 : initial s)
    (hr : ∀ e ∈ es, e.registered = true) :
    scrollLocked (runEvents s es) = true →
      (visible (runEvents s es) "loginModal" = true ∨
        visible (runEvents s es) "registerModal" = true) := by
  have hinit : lockedHasVisible s := by
    refine ⟨bothExist_of_initial h0, fun hl => ?_⟩
    rw [h0.2.2.1] at hl
    cases hl
  exact (lockedHasVisible_runEvents es s hinit hr).2

/-- The statement of C8 (amended) on a run from the sample page that ends
with the scroll locked: a switch to the register modal whose timer fires. -/
theorem scroll_locked_implies_visible_witness :
    initial samplePage ∧
    scrollLocked (runEvents samplePage
      [Event.callOpen "loginModal", Event.callSwitchToRegister, Event.timer 0]) = true ∧
    (visible (runEvents samplePage
        [Event.callOpen "loginModal", Event.callSwitchToRegister, Event.timer 0])
        "loginModal" = true ∨
      visible (runEvents samplePage
        [Event.callOpen "loginModal", Event.callSwitchToRegister, Event.timer 0])
        "registerModal" = true) :=
  ⟨by decide, by decide,
   scroll_locked_implies_visible samplePage
     [Event.callOpen "loginModal", Event.callSwitchToRegister, Event.timer 0]
     (by decide) (by decide) (by decide)⟩

/-! ## The page between the two steps of a switch -/

theorem visible_false_of_hidden {s : Page} {K : String} (h : hidden s K = true) :
    visible s K = false := by
  cases hv : visible s K with
  | false => rfl
  | true => exact absurd ⟨hv, h⟩ (visible_hidden_exclusive s K)

/-- For C9, the claim as stated fails: on the page where `registerModal` is
shown, `registerModal` is still visible right after `switchToRegister()`. -/
theorem register_stays_visible_after_switch :
    ¬ (∀ s : Page, bothExist s →
        visible (switchToRegister s).page "loginModal" = false ∧
        visible (switchToRegister s).page "registerModal" = false ∧
        scrollUnlocked (switchToRegister s).page = true) := by
  intro h
  exact absurd (h registerShownPage (by decide)).2.1 (by decide)

/-- C9 (amended): for every page in which both modals exist, right after
`switchToRegister()` returns (its timer still pending) `loginModal` is hidden
and the scroll is unlocked, and `registerModal` is as visible as it was before
the call; so when `registerModal` was not visible before the call, neither
modal is visible. -/
theorem switch_transient (s : Page) (h : bothExist s) :
    (switchToRegister s).error = none ∧
    hidden (switchToRegister s).page "loginModal" = true ∧
    visible (switchToRegister s).page "loginModal" = false ∧
    (switchToRegister s).page.overflow = "auto" ∧
    scrollUnlocked (switchToRegister s).page = true ∧
    visible (switchToRegister s).page "registerModal" = visible s "registerModal" ∧
    (visible s "registerModal" = false →
      visible (switchToRegister s).page "loginModal" = false ∧
      visible (switchToRegister s).page "registerModal" = false) := by
  obtain ⟨n, hn⟩ := Option.isSome_iff_exists.mp h.1
  have hs := switchToRegister_some hn
  have hel : (switchToRegister s).page.elements = (closeModal "loginModal" s).page.elements := by
    rw [hs]; rfl
  have hov : (switchToRegister s).page.overflow = "auto" := by
    rw [hs]; exact closeModal_overflow hn
  have hhid : hidden (switchToRegister s).page "loginModal" = true := by
    rw [hidden_congr hel]
    exact hidden_closeModal_same hn
  have hreg : visible (switchToRegister s).page "registerModal" = visible s "registerModal" := by
    rw [visible_congr hel]
    exact visible_closeModal_ne s (by decide)
  refine ⟨by rw [hs]; rfl, hhid, visible_false_of_hidden hhid, hov, ?_, hreg, fun hr => ?_⟩
  · simp [scrollUnlocked, hov]
  · exact ⟨visible_false_of_hidden hhid, by rw [hreg, hr]⟩

/-- The statement of C9 (amended) at the page with both modals shown and, for
its last part, at the sample page. -/
theorem switch_transient_witness :
    bothExist bothShownPage ∧
    (hidden (switchToRegister bothShownPage).page "loginModal" = true ∧
      scrollUnlocked (switchToRegister bothShownPage).page = true ∧
      visible (switchToRegister bothShownPage).page "registerModal" = true) ∧
    (visible (switchToRegister samplePage).page "loginModal" = false ∧
      visible (switchToRegister samplePage).page "registerModal" = false) :=
  ⟨by decide,
   ⟨(switch_transient bothShownPage (by decide)).2.1,
    (switch_transient bothShownPage (by decide)).2.2.2.2.1,
    (switch_transient bothShownPage (by decide)).2.2.2.2.2.1⟩,
   (switch_transient samplePage (by decide)).2.2.2.2.2.2 (by decide)⟩

/-! ## Timer steps -/

theorem visible_openModal_mono (s : Page) (J K : String) (h : visible s K = true) :
    visible (openModal J s).page K = true := by
  by_cases hKJ : K = J
  · subst hKJ
    cases hg : getElementById s K with
    | none => simp [visible, hg] at h
    | some n => exact visible_openModal_same hg
  · rw [visible_openModal_ne s hKJ, h]

theorem fireTimer_some {s : Page} {i : Nat} {t : Timer} (h : s.timers[i]? = some t) :
    fireTimer i s = openModal t.callback.modalId { s with timers := s.timers.eraseIdx i } := by
  unfold fireTimer
  rw [h]
  simp only [Callback.run_eq]

theorem fireTimer_none {s : Page} {i : Nat} (h : s.timers[i]? = none) :
    fireTimer i s = Outcome.ok s := by
  unfold fireTimer
  rw [h]

/-- For C10, the claim as stated fails: on the page left by
`switchToRegister()` run on the sample page, the timer step turns
`registerModal` from not visible to visible. -/
theorem timer_step_changes_visibility :
    ¬ (∀ (s : Page) (i : Nat), bothExist s →
        visible (step s (Event.timer i)) "loginModal" = visible s "loginModal" ∧
        visible (step s (Event.timer i)) "registerModal" = visible s "registerModal") := by
  intro h
  exact absurd (h (switchToRegister samplePage).page 0 (by decide)).2 (by decide)

/-- C10 (amended): a timer step is the delayed `openModal(Y)` of a switch. For
every page in which both modals exist and every pending timer, after the step
the modal `Y` its callback opens is visible and the visibility of every other
key is as before; a step for a timer that is not pending leaves the page as
it was. No timer step and no `openModal` call hides a modal: a step after
which a modal that was visible is no longer visible is a `closeModal` call, a
switch call, a click event or a keydown event. -/
theorem timer_step_opens (s : Page) (i : Nat) (h : bothExist s) :
    (∀ t, s.timers[i]? = some t →
      visible (step s (Event.timer i)) t.callback.modalId = true ∧
      (∀ K, K ≠ t.callback.modalId → visible (step s (Event.timer i)) K = visible s K)) ∧
    (s.timers[i]? = none → step s (Event.timer i) = s) ∧
    (∀ (e : Event) (K : String), visible s K = true → visible (step s e) K = false →
      ((∃ k, e = Event.callClose k) ∨ e = Event.callSwitchToRegister ∨
        e = Event.callSwitchToLogin ∨ (∃ target, e = Event.click target) ∨
        (∃ key, e = Event.keydown key))) := by
  refine ⟨fun t ht => ?_, fun hnone => ?_, fun e K hv hnv => ?_⟩
  · have hs : step s (Event.timer i) = (fireTimer i s).page := rfl
    obtain ⟨_, h2, _, _⟩ := openModal_page_timers_irrel t.callback.modalId s (s.timers.eraseIdx i)
    rw [hs, fireTimer_some ht]
    have hres : (getElementById s t.callback.modalId).isSome = true := by
      rcases mem_modals t.callback.modalId_mem with hc | hc
      · rw [hc]; exact h.1
      · rw [hc]; exact h.2
    obtain ⟨n, hn⟩ := Option.isSome_iff_exists.mp hres
    refine ⟨?_, fun K hK => ?_⟩
    · rw [visible_congr h2]
      exact visible_openModal_same hn
    · rw [visible_congr h2]
      exact visible_openModal_ne s hK
  · have hs : step s (Event.timer i) = (fireTimer i s).page := rfl
    rw [hs, fireTimer_none hnone]
    rfl
  · cases e with
    | callOpen J =>
      have hs : step s (Event.callOpen J) = (openModal J s).page := rfl
      rw [hs, visible_openModal_mono s J K hv] at hnv
      cases hnv
    | callClose k => exact Or.inl ⟨k, rfl⟩
    | callSwitchToRegister => exact Or.inr (Or.inl rfl)
    | callSwitchToLogin => exact Or.inr (Or.inr (Or.inl rfl))
    | click target => exact Or.inr (Or.inr (Or.inr (Or.inl ⟨target, rfl⟩)))
    | keydown key => exact Or.inr (Or.inr (Or.inr (Or.inr ⟨key, rfl⟩)))
    | timer j =>
      have hs : step s (Event.timer j) = (fireTimer j s).page := rfl
      rw [hs] at hnv
      cases ht : s.timers[j]? with
      | none =>
        rw [fireTimer_none ht] at hnv
        have hv2 : visible s K = false := hnv
        rw [hv] at hv2
        cases hv2
      | some t =>
        obtain ⟨_, h2, _, _⟩ :=
          openModal_page_timers_irrel t.callback.modalId s (s.timers.eraseIdx j)
        rw [fireTimer_some ht, visible_congr h2, visible_openModal_mono s _ K hv] at hnv
        cases hnv

/-- The statement of C10 (amended) at the page left by `switchToRegister()`
run on the sample page, whose one pending timer opens `registerModal`. -/
theorem timer_step_opens_witness :
    bothExist (switchToRegister samplePage).page ∧
    visible (switchToRegister samplePage).page "registerModal" = false ∧
    visible (step (switchToRegister samplePage).page (Event.timer 0)) "registerModal" = true ∧
    visible (step (switchToRegister samplePage).page (Event.timer 0)) "loginModal" =
      visible (switchToRegister samplePage).page "loginModal" :=
  ⟨by decide, by decide,
   ((timer_step_opens (switchToRegister samplePage).page 0 (by decide)).1
      ⟨Callback.openRegisterModal, 300⟩ (by decide)).1,
   ((timer_step_opens (switchToRegister samplePage).page 0 (by decide)).1
      ⟨Callback.openRegisterModal, 300⟩ (by decide)).2 "loginModal" (by decide)⟩

end Modals
